import Mathlib

/-!
Verification of the felix-overlay window-interactivity core
(src/electron/main.ts): the auto-fit bounds controller
(applyWidgetBoundsToWindow and its IPC guard), the cursor broadcast loop
(startCursorBroadcast), and the input routing controller
(setOverlayClickThrough driven by the IPC events).  Machine integers of
the host (Electron DIP coordinates) are modelled as Int, JavaScript
doubles reported by the renderer as Rat together with an explicit
non-finite marker.
-/

namespace FelixOverlay

/-- A JavaScript number as it crosses the IPC boundary: either a finite
value (modelled as a rational) or one of the non-finite values that
Number.isFinite rejects. -/
inductive JSNum
  | nan
  | posInf
  | negInf
  | finite (q : ℚ)
deriving DecidableEq

/-- Number.isFinite. -/
def JSNum.isFinite : JSNum → Bool
  | .finite _ => true
  | _ => false

/-- The window rectangle in screen coordinates, as returned by
win.getBounds and consumed by win.setBounds (integer DIP values). -/
structure WindowRect where
  x : ℤ
  y : ℤ
  width : ℤ
  height : ℤ
deriving DecidableEq

/-- display.workArea of the resolved display (integer DIP values). -/
structure WorkArea where
  x : ℤ
  y : ℤ
  width : ℤ
  height : ℤ
deriving DecidableEq

/-- WidgetBounds after validation: the renderer-reported bounding box,
all four fields finite. -/
structure WidgetBounds where
  left : ℚ
  top : ℚ
  width : ℚ
  height : ℚ
deriving DecidableEq

/-- The raw payload of the overlay:set-widget-bounds IPC message before
validation: each field may be non-finite. -/
structure RawBounds where
  left : JSNum
  top : JSNum
  width : JSNum
  height : JSNum
deriving DecidableEq

/-- JavaScript Math.round: round half toward positive infinity. -/
def jsRound (q : ℚ) : ℤ := ⌊q + 1 / 2⌋

/-- clamp from main.ts: Math.min(max, Math.max(min, n)). -/
def clamp (n lo hi : ℤ) : ℤ := min hi (max lo n)

/-- currentCenter from applyWidgetBoundsToWindow:
(current.x + Math.round(current.width / 2),
 current.y + Math.round(current.height / 2)). -/
def windowCenter (current : WindowRect) : ℤ × ℤ :=
  (current.x + jsRound ((current.width : ℚ) / 2),
   current.y + jsRound ((current.height : ℚ) / 2))

/-- The candidate rect computed by applyWidgetBoundsToWindow once the
display is resolved: desired size is the widget size plus twice the
padding of 28, clamped to [1, workArea side], and the rect is centered
in the work area. -/
def candidateRect (workArea : WorkArea) (widgetBounds : WidgetBounds) : WindowRect :=
  let padding : ℚ := 28
  let desiredWidth := max 1 (jsRound (widgetBounds.width + padding * 2))
  let desiredHeight := max 1 (jsRound (widgetBounds.height + padding * 2))
  let maxWidth := workArea.width
  let maxHeight := workArea.height
  let width := clamp desiredWidth 1 maxWidth
  let height := clamp desiredHeight 1 maxHeight
  let x := jsRound ((workArea.x : ℚ) + ((workArea.width : ℚ) - (width : ℚ)) / 2)
  let y := jsRound ((workArea.y : ℚ) + ((workArea.height : ℚ) - (height : ℚ)) / 2)
  ⟨x, y, width, height⟩

/-- The summed absolute per-field delta between the current rect and the
candidate rect (the anti-jitter measure of applyWidgetBoundsToWindow). -/
def rectDelta (current next : WindowRect) : ℕ :=
  (current.x - next.x).natAbs +
  (current.y - next.y).natAbs +
  (current.width - next.width).natAbs +
  (current.height - next.height).natAbs

/-- applyWidgetBoundsToWindow from main.ts.  The display lookup
screen.getDisplayNearestPoint is passed in as a function from a point to
an optional work area; the code itself has no branch for a missing
display, so a lookup yielding none makes the unguarded access
display.workArea throw, modelled as Except.error.  Except.ok none means
the call returned without mutating the window; Except.ok (some next)
means win.setBounds(next) was invoked. -/
def applyWidgetBoundsToWindow (getDisplayNearestPoint : ℤ × ℤ → Option WorkArea)
    (current : WindowRect) (widgetBounds : WidgetBounds) :
    Except Unit (Option WindowRect) :=
  match getDisplayNearestPoint (windowCenter current) with
  | none => .error ()
  | some workArea =>
    let next := candidateRect workArea widgetBounds
    if rectDelta current next < 2 then .ok none else .ok (some next)

/-- The overlay:set-widget-bounds IPC handler: reject a missing payload,
reject any non-finite field, reject non-positive width or height, and
otherwise delegate to applyWidgetBoundsToWindow. -/
def setWidgetBoundsHandler (getDisplayNearestPoint : ℤ × ℤ → Option WorkArea)
    (current : WindowRect) (bounds : Option RawBounds) :
    Except Unit (Option WindowRect) :=
  match bounds with
  | none => .ok none
  | some b =>
    match b.left, b.top, b.width, b.height with
    | .finite l, .finite t, .finite w, .finite h =>
      if w ≤ 0 ∨ h ≤ 0 then .ok none
      else applyWidgetBoundsToWindow getDisplayNearestPoint current ⟨l, t, w, h⟩
    | _, _, _, _ => .ok none

/-- The rect a call leaves the window with: the candidate when setBounds
ran, the previous rect when the call returned early or threw. -/
def resultingRect (current : WindowRect) :
    Except Unit (Option WindowRect) → WindowRect
  | .ok (some next) => next
  | _ => current

/-- The window rect after a finite sequence of
overlay:set-widget-bounds-driven applyWidgetBoundsToWindow calls. -/
def runBoundsCalls (getDisplayNearestPoint : ℤ × ℤ → Option WorkArea)
    (current : WindowRect) : List WidgetBounds → WindowRect
  | [] => current
  | wb :: rest =>
    runBoundsCalls getDisplayNearestPoint
      (resultingRect current
        (applyWidgetBoundsToWindow getDisplayNearestPoint current wb)) rest

/-- The hypothesis of the anti-jitter property: along the run, every
call resolves a display and its computed candidate rect is within the
jitter threshold of the rect current at that call. -/
def smallDeltaRun (getDisplayNearestPoint : ℤ × ℤ → Option WorkArea) :
    WindowRect → List WidgetBounds → Bool
  | _, [] => true
  | current, wb :: rest =>
    (match getDisplayNearestPoint (windowCenter current) with
     | none => false
     | some workArea => rectDelta current (candidateRect workArea wb) < 2) &&
    smallDeltaRun getDisplayNearestPoint
      (resultingRect current
        (applyWidgetBoundsToWindow getDisplayNearestPoint current wb)) rest

/-- The payload the cursor broadcast loop compares and emits:
window-relative coordinates plus the containment flag. -/
structure CursorPayload where
  x : ℤ
  y : ℤ
  inWindow : Bool
deriving DecidableEq

/-- The per-tick sample computation of startCursorBroadcast:
x = point.x - bounds.x, y = point.y - bounds.y,
inWindow = x >= 0 && y >= 0 && x < bounds.width && y < bounds.height. -/
def computeCursorSample (bounds : WindowRect) (point : ℤ × ℤ) : CursorPayload :=
  let x := point.1 - bounds.x
  let y := point.2 - bounds.y
  let inWindow :=
    decide (x ≥ 0) && decide (y ≥ 0) && decide (x < bounds.width) && decide (y < bounds.height)
  ⟨x, y, inWindow⟩

/-- One tick of the interval installed by startCursorBroadcast.  The
first component of the result is the new lastCursorPayload, the second
is the payload sent over overlay:cursor (none when the tick returned
early).  A destroyed window makes the tick a no-op; otherwise the
computed payload is suppressed exactly when it matches the stored
lastCursorPayload field by field. -/
def cursorTick (destroyed : Bool) (bounds : WindowRect) (point : ℤ × ℤ)
    (lastCursorPayload : Option CursorPayload) :
    Option CursorPayload × Option CursorPayload :=
  if destroyed then (lastCursorPayload, none)
  else
    let payload := computeCursorSample bounds point
    match lastCursorPayload with
    | some last =>
      if last.x = payload.x ∧ last.y = payload.y ∧ last.inWindow = payload.inWindow then
        (some last, none)
      else (some payload, some payload)
    | none => (some payload, some payload)

/-- A run of cursor broadcast ticks: each tick supplies the destroyed
flag, the window bounds and the global cursor point.  Returns the final
lastCursorPayload and the list of emitted samples in order. -/
def runCursorTicks (lastCursorPayload : Option CursorPayload) :
    List (Bool × WindowRect × (ℤ × ℤ)) → Option CursorPayload × List CursorPayload
  | [] => (lastCursorPayload, [])
  | (destroyed, bounds, point) :: rest =>
    let step := cursorTick destroyed bounds point lastCursorPayload
    let tail := runCursorTicks step.1 rest
    (tail.1, step.2.toList ++ tail.2)

/-- The module-level state of the broadcast machinery: whether the
interval is installed, and the dedup memory lastCursorPayload (null at
program start). -/
structure CursorBroadcastState where
  intervalActive : Bool
  lastCursorPayload : Option CursorPayload
deriving DecidableEq

/-- The initial values of cursorBroadcastInterval and lastCursorPayload
(lines 12-13 of main.ts): no interval, empty dedup memory. -/
def initialCursorBroadcastState : CursorBroadcastState :=
  ⟨false, none⟩

/-- The closed handler installed by startCursorBroadcast: clear the
interval if present and reset lastCursorPayload to null. -/
def handleWindowClosed (_st : CursorBroadcastState) : CursorBroadcastState :=
  ⟨false, none⟩

/-- setOverlayClickThrough from main.ts, abstracted over the platform
test process.platform === "darwin": the pair of arguments ultimately
passed to win.setIgnoreMouseEvents (ignore flag, forward option).  On
darwin the forward option is never used; elsewhere click-through
forwards mouse moves. -/
structure MouseEventsConfig where
  ignore : Bool
  forward : Bool
deriving DecidableEq

/-- setOverlayClickThrough. -/
def setOverlayClickThrough (isDarwin : Bool) (clickThrough : Bool) : MouseEventsConfig :=
  if isDarwin then ⟨clickThrough, false⟩
  else if clickThrough then ⟨true, true⟩
  else ⟨false, false⟩

/-- The window is Interactive exactly when mouse events are not
ignored; otherwise it is ClickThrough. -/
def MouseEventsConfig.interactive (c : MouseEventsConfig) : Bool :=
  !c.ignore

/-- The interactivity-relevant events the main process receives:
overlay:set-widget-hovering (reportHover), overlay:request-click-through
(requestInteractive with the opposite polarity), and the tray Open
Settings click. -/
inductive OverlayEvent
  | setWidgetHovering (hovering : Bool)
  | requestClickThrough (clickThrough : Bool)
  | openSettings
deriving DecidableEq

/-- How main.ts reacts to each event (window assumed alive): every
handler calls setOverlayClickThrough with a value derived from the event
alone, overwriting whatever state was there before. -/
def handleOverlayEvent (isDarwin : Bool) : OverlayEvent → MouseEventsConfig
  | .setWidgetHovering hovering => setOverlayClickThrough isDarwin (!hovering)
  | .requestClickThrough clickThrough => setOverlayClickThrough isDarwin clickThrough
  | .openSettings => setOverlayClickThrough isDarwin false

/-- The interactivity state after processing a list of events from a
given starting configuration. -/
def runOverlayEvents (isDarwin : Bool) (init : MouseEventsConfig) :
    List OverlayEvent → MouseEventsConfig
  | [] => init
  | e :: rest => runOverlayEvents isDarwin (handleOverlayEvent isDarwin e) rest

/-- A requestInteractive(true) override is outstanding after a trace
when some requestClickThrough(false) event occurred and no
requestClickThrough(true) occurred after it, i.e. the last
request-click-through event in the trace carried false. -/
def requestInteractiveOutstanding (events : List OverlayEvent) : Bool :=
  events.foldl
    (fun acc e =>
      match e with
      | .requestClickThrough ct => !ct
      | _ => acc)
    false

-- Helper lemmas --------------------------------------------------------

/-- Evaluation of the spec's concrete resize scenario: a 1920x1080
window and work area with widget bounds 200x120 yield the applied rect
(832, 452, 256, 176). -/
theorem applyBounds_concrete_eval :
    applyWidgetBoundsToWindow (fun _ => some ⟨0, 0, 1920, 1080⟩)
      ⟨0, 0, 1920, 1080⟩ ⟨860, 480, 200, 120⟩ =
      .ok (some ⟨832, 452, 256, 176⟩) := by
  norm_num [applyWidgetBoundsToWindow, candidateRect, windowCenter, jsRound,
    clamp, rectDelta]

/-- A live tick with a stored previous sample keeps the stored sample
and stays silent exactly when the computed sample matches it, and
otherwise stores and emits the computed sample. -/
theorem cursorTick_some_eq (bounds : WindowRect) (point : ℤ × ℤ)
    (prev : CursorPayload) :
    cursorTick false bounds point (some prev) =
      if computeCursorSample bounds point = prev then (some prev, none)
      else (some (computeCursorSample bounds point),
            some (computeCursorSample bounds point)) := by
  obtain ⟨px, py, pin⟩ := prev
  simp only [cursorTick, Bool.false_eq_true, if_false]
  generalize computeCursorSample bounds point = s
  obtain ⟨sx, sy, si⟩ := s
  split_ifs with h1 h2 h2 <;> simp_all [CursorPayload.mk.injEq]

/-- A suppressed run: every tick recomputing the sample already stored
as lastCursorPayload emits nothing and leaves the stored sample
unchanged. -/
theorem runCursorTicks_same_sample (b : WindowRect) (p : ℤ × ℤ) :
    ∀ m, runCursorTicks (some (computeCursorSample b p))
      (List.replicate m (false, b, p)) = (some (computeCursorSample b p), []) := by
  intro m
  induction m with
  | zero => rfl
  | succ k ih =>
    simp only [List.replicate_succ, runCursorTicks, cursorTick_some_eq, if_pos rfl]
    simp [ih]

-- Claim theorems -------------------------------------------------------

/-- C6: on every cursor broadcast tick the computed sample is the
cursor screen point minus the window origin, with insideWindow true
exactly when the relative point lies in [0, width) x [0, height); the
concrete scenario with window (400,400,300,300) yields (100,100,true)
at cursor (500,500) and (600,600,false) at cursor (1000,1000), and both
consecutive samples are emitted. -/
theorem cursor_sample_formula_scenario :
    (∀ bounds : WindowRect, ∀ point : ℤ × ℤ,
      (computeCursorSample bounds point).x = point.1 - bounds.x ∧
      (computeCursorSample bounds point).y = point.2 - bounds.y ∧
      ((computeCursorSample bounds point).inWindow = true ↔
        (0 ≤ point.1 - bounds.x ∧ point.1 - bounds.x < bounds.width ∧
         0 ≤ point.2 - bounds.y ∧ point.2 - bounds.y < bounds.height))) ∧
    computeCursorSample ⟨400, 400, 300, 300⟩ (500, 500) = ⟨100, 100, true⟩ ∧
    computeCursorSample ⟨400, 400, 300, 300⟩ (1000, 1000) = ⟨600, 600, false⟩ ∧
    (runCursorTicks none
      [(false, ⟨400, 400, 300, 300⟩, (500, 500)),
       (false, ⟨400, 400, 300, 300⟩, (1000, 1000))]).2 =
      [⟨100, 100, true⟩, ⟨600, 600, false⟩] := by
  refine ⟨?_, by decide, by decide, by decide⟩
  intro bounds point
  refine ⟨rfl, rfl, ?_⟩
  simp only [computeCursorSample, Bool.and_eq_true, decide_eq_true_iff]
  tauto

/-- C4: a tick with a previously emitted sample emits the freshly
computed sample exactly when it differs field-wise from the stored one;
the stored lastCursorPayload after any live tick is the computed
sample, so the comparison is always against the most recently emitted
sample; and a run of ticks all computing one identical sample, started
from a dedup state differing from that sample, emits it exactly once. -/
theorem cursor_emission_dedup :
    (∀ bounds : WindowRect, ∀ point : ℤ × ℤ, ∀ prev : CursorPayload,
      (cursorTick false bounds point (some prev)).2 =
        (if computeCursorSample bounds point = prev then none
         else some (computeCursorSample bounds point))) ∧
    (∀ bounds point last, (cursorTick false bounds point last).1 =
        some (computeCursorSample bounds point)) ∧
    (∀ n : ℕ, ∀ bounds : WindowRect, ∀ point : ℤ × ℤ,
      ∀ last : Option CursorPayload,
      last ≠ some (computeCursorSample bounds point) → 0 < n →
      (runCursorTicks last (List.replicate n (false, bounds, point))).2 =
        [computeCursorSample bounds point]) := by
  refine ⟨?_, ?_, ?_⟩
  · intro bounds point prev
    rw [cursorTick_some_eq]
    by_cases h : computeCursorSample bounds point = prev <;> simp [h]
  · intro bounds point last
    rcases last with _ | prev
    · rfl
    · rw [cursorTick_some_eq]
      by_cases h : computeCursorSample bounds point = prev <;> simp [h]
  · intro n bounds point last hne hn
    rcases n with _ | m
    · omega
    simp only [List.replicate_succ, runCursorTicks]
    have hstep : cursorTick false bounds point last =
        (some (computeCursorSample bounds point),
         some (computeCursorSample bounds point)) := by
      rcases last with _ | prev
      · rfl
      · rw [cursorTick_some_eq, if_neg]
        intro hc
        exact hne (by rw [hc])
    rw [hstep]
    simp [runCursorTicks_same_sample bounds point m]

/-- C10: the dedup memory starts empty and is reset to empty by the
closed handler, so the first sample computed by a live tick from either
state is always emitted. -/
theorem first_sample_after_start_emitted :
    ∀ bounds : WindowRect, ∀ point : ℤ × ℤ, ∀ st : CursorBroadcastState,
      (cursorTick false bounds point
        initialCursorBroadcastState.lastCursorPayload).2 =
        some (computeCursorSample bounds point) ∧
      (cursorTick false bounds point
        (handleWindowClosed st).lastCursorPayload).2 =
        some (computeCursorSample bounds point) := by
  intro bounds point st
  exact ⟨rfl, rfl⟩

/-- C1 counterexample: on the non-darwin platform branch, starting from
the default click-through configuration, the trace consisting of
requestClickThrough(false) (i.e. requestInteractive(true)) followed by
setWidgetHovering(false) leaves the request outstanding and yet puts
the window in ClickThrough: the override is not latched. -/
theorem requestInteractive_override_cex :
    requestInteractiveOutstanding
      [.requestClickThrough false, .setWidgetHovering false] = true ∧
    (runOverlayEvents false (setOverlayClickThrough false true)
      [.requestClickThrough false, .setWidgetHovering false]).interactive =
      false := by
  decide

/-- C1 amended: the interactivity state is not an aggregate of
outstanding signals but simply tracks the most recently processed
event: after any trace ending in event e, the configuration is exactly
the one e installs, and it is Interactive precisely when e is
setWidgetHovering(true), requestClickThrough(false) or the tray
openSettings click; an intervening reportHover(false) therefore returns
the window to ClickThrough even while a requestInteractive(true)
override is outstanding. -/
theorem interactivity_follows_last_event :
    ∀ isDarwin : Bool, ∀ init : MouseEventsConfig,
    ∀ events : List OverlayEvent, ∀ e : OverlayEvent,
      runOverlayEvents isDarwin init (events ++ [e]) =
        handleOverlayEvent isDarwin e ∧
      ((handleOverlayEvent isDarwin e).interactive = true ↔
        e = .setWidgetHovering true ∨ e = .requestClickThrough false ∨
        e = .openSettings) := by
  intro isDarwin init events e
  constructor
  · induction events generalizing init with
    | nil => rfl
    | cons e2 rest ih => exact ih (handleOverlayEvent isDarwin e2)
  · cases e with
    | setWidgetHovering h =>
      cases h <;> cases isDarwin <;>
        simp [handleOverlayEvent, setOverlayClickThrough, MouseEventsConfig.interactive]
    | requestClickThrough ct =>
      cases ct <;> cases isDarwin <;>
        simp [handleOverlayEvent, setOverlayClickThrough, MouseEventsConfig.interactive]
    | openSettings =>
      cases isDarwin <;>
        simp [handleOverlayEvent, setOverlayClickThrough, MouseEventsConfig.interactive]

/-- C5: a reported bounds payload with any non-finite field or a
non-positive width or height is rejected by the
overlay:set-widget-bounds handler: the handler neither throws nor calls
setBounds, and the window rect stays exactly what it was. -/
theorem malformed_bounds_rejected :
    ∀ getDisplayNearestPoint : ℤ × ℤ → Option WorkArea,
    ∀ current : WindowRect, ∀ b : RawBounds,
      ((b.left.isFinite = false ∨ b.top.isFinite = false ∨
        b.width.isFinite = false ∨ b.height.isFinite = false) ∨
       (∃ w : ℚ, b.width = .finite w ∧ w ≤ 0) ∨
       (∃ h : ℚ, b.height = .finite h ∧ h ≤ 0)) →
      setWidgetBoundsHandler getDisplayNearestPoint current (some b) = .ok none ∧
      resultingRect current
        (setWidgetBoundsHandler getDisplayNearestPoint current (some b)) =
        current := by
  intro gd current b hmal
  have hrej : setWidgetBoundsHandler gd current (some b) = .ok none := by
    obtain ⟨bl, bt, bw, bh⟩ := b
    rcases bl with _ | _ | _ | l <;> rcases bt with _ | _ | _ | t <;>
      rcases bw with _ | _ | _ | w <;> rcases bh with _ | _ | _ | h <;>
      simp_all [setWidgetBoundsHandler, JSNum.isFinite]
  exact ⟨hrej, by rw [hrej]; rfl⟩

/-- C7: applyWidgetBoundsToWindow reads only the width and height of
the reported bounds; two reports agreeing on width and height but
differing arbitrarily in left and top produce identical outcomes from
the same window and display state. -/
theorem bounds_position_independence :
    ∀ getDisplayNearestPoint : ℤ × ℤ → Option WorkArea,
    ∀ current : WindowRect, ∀ wb1 wb2 : WidgetBounds,
      wb1.width = wb2.width → wb1.height = wb2.height →
      applyWidgetBoundsToWindow getDisplayNearestPoint current wb1 =
        applyWidgetBoundsToWindow getDisplayNearestPoint current wb2 := by
  intro gd current wb1 wb2 hw hh
  obtain ⟨l1, t1, w1, h1⟩ := wb1
  obtain ⟨l2, t2, w2, h2⟩ := wb2
  simp only at hw hh
  subst hw hh
  rfl

/-- C7 witness: reports (0,0,10,10) and (99,-5,10,10) yield the same
outcome on a concrete window and display. -/
theorem bounds_position_independence_witness :
    (⟨0, 0, 10, 10⟩ : WidgetBounds).width = (⟨99, -5, 10, 10⟩ : WidgetBounds).width ∧
    applyWidgetBoundsToWindow (fun _ => some ⟨0, 0, 1920, 1080⟩)
      ⟨0, 0, 100, 100⟩ ⟨0, 0, 10, 10⟩ =
      applyWidgetBoundsToWindow (fun _ => some ⟨0, 0, 1920, 1080⟩)
        ⟨0, 0, 100, 100⟩ ⟨99, -5, 10, 10⟩ :=
  ⟨rfl, bounds_position_independence (fun _ => some ⟨0, 0, 1920, 1080⟩)
    ⟨0, 0, 100, 100⟩ ⟨0, 0, 10, 10⟩ ⟨99, -5, 10, 10⟩ rfl rfl⟩

/-- C8 counterexample: when the display lookup yields nothing, the call
is not abandoned silently: the unguarded access to display.workArea
makes the error propagate (the result is an exception, not a silent
return). -/
theorem display_failure_silent_cex :
    applyWidgetBoundsToWindow (fun _ => none) ⟨0, 0, 100, 100⟩ ⟨0, 0, 10, 10⟩ =
      .error () ∧
    applyWidgetBoundsToWindow (fun _ => none) ⟨0, 0, 100, 100⟩ ⟨0, 0, 10, 10⟩ ≠
      .ok none := by
  have h0 : applyWidgetBoundsToWindow (fun _ => none) ⟨0, 0, 100, 100⟩
      ⟨0, 0, 10, 10⟩ = .error () := rfl
  refine ⟨h0, ?_⟩
  rw [h0]
  intro h
  exact Except.noConfusion h

/-- C8 amended: if no display resolves for the window's center, the
window keeps its last valid rect (no setBounds happens, since the
failure precedes any mutation), but the failure is not silent: the code
has no guard for a missing display and the error propagates out of the
call. -/
theorem display_failure_error_no_mutation :
    ∀ getDisplayNearestPoint : ℤ × ℤ → Option WorkArea,
    ∀ current : WindowRect, ∀ wb : WidgetBounds,
      getDisplayNearestPoint (windowCenter current) = none →
      applyWidgetBoundsToWindow getDisplayNearestPoint current wb = .error () ∧
      resultingRect current
        (applyWidgetBoundsToWindow getDisplayNearestPoint current wb) =
        current := by
  intro gd current wb hgd
  have herr : applyWidgetBoundsToWindow gd current wb = .error () := by
    unfold applyWidgetBoundsToWindow
    rw [hgd]
  exact ⟨herr, by rw [herr]; rfl⟩

/-- C8 amended witness: a concrete call with an unresolvable display
errors and leaves the rect untouched. -/
theorem display_failure_error_no_mutation_witness :
    applyWidgetBoundsToWindow (fun _ => none) ⟨5, 6, 70, 80⟩ ⟨1, 2, 30, 40⟩ =
      .error () ∧
    resultingRect ⟨5, 6, 70, 80⟩
      (applyWidgetBoundsToWindow (fun _ => none) ⟨5, 6, 70, 80⟩ ⟨1, 2, 30, 40⟩) =
      ⟨5, 6, 70, 80⟩ :=
  display_failure_error_no_mutation (fun _ => none) ⟨5, 6, 70, 80⟩
    ⟨1, 2, 30, 40⟩ rfl

/-- C5 witness: a payload with width -5 is rejected and the rect of a
concrete window is retained. -/
theorem malformed_bounds_rejected_witness :
    setWidgetBoundsHandler (fun _ => none) ⟨3, 4, 50, 60⟩
      (some ⟨.finite 0, .finite 0, .finite (-5), .finite 10⟩) = .ok none ∧
    resultingRect ⟨3, 4, 50, 60⟩
      (setWidgetBoundsHandler (fun _ => none) ⟨3, 4, 50, 60⟩
        (some ⟨.finite 0, .finite 0, .finite (-5), .finite 10⟩)) =
      ⟨3, 4, 50, 60⟩ :=
  malformed_bounds_rejected (fun _ => none) ⟨3, 4, 50, 60⟩
    ⟨.finite 0, .finite 0, .finite (-5), .finite 10⟩
    (Or.inr (Or.inl ⟨-5, rfl, by decide⟩))

/-- C2: whenever a display resolves and applyWidgetBoundsToWindow
applies a rect for a positive-size report, the applied width and height
never exceed the work area's, and are at least 1 as soon as the work
area's sides are at least 1. -/
theorem apply_bounds_fits_work_area :
    ∀ getDisplayNearestPoint : ℤ × ℤ → Option WorkArea,
    ∀ current : WindowRect, ∀ wb : WidgetBounds, ∀ workArea : WorkArea,
      0 < wb.width → 0 < wb.height →
      getDisplayNearestPoint (windowCenter current) = some workArea →
      ∀ r : WindowRect,
        applyWidgetBoundsToWindow getDisplayNearestPoint current wb =
          .ok (some r) →
        r.width ≤ workArea.width ∧ r.height ≤ workArea.height ∧
        (1 ≤ workArea.width → 1 ≤ workArea.height →
          1 ≤ r.width ∧ 1 ≤ r.height) := by
  intro gd current wb wa hw hh hgd r happ
  unfold applyWidgetBoundsToWindow at happ
  rw [hgd] at happ
  simp only at happ
  split at happ
  · exact absurd happ (by intro h; cases h)
  · have hr : r = candidateRect wa wb := by
      cases happ
      rfl
    subst hr
    simp only [candidateRect, clamp]
    refine ⟨?_, ?_, ?_⟩ <;> intros <;> omega

/-- C2 witness: the concrete scenario's applied rect 256 x 176 fits the
1920 x 1080 work area and is non-degenerate. -/
theorem apply_bounds_fits_work_area_witness :
    (⟨832, 452, 256, 176⟩ : WindowRect).width ≤ (⟨0, 0, 1920, 1080⟩ : WorkArea).width ∧
    (⟨832, 452, 256, 176⟩ : WindowRect).height ≤ (⟨0, 0, 1920, 1080⟩ : WorkArea).height ∧
    (1 ≤ (⟨0, 0, 1920, 1080⟩ : WorkArea).width →
      1 ≤ (⟨0, 0, 1920, 1080⟩ : WorkArea).height →
      1 ≤ (⟨832, 452, 256, 176⟩ : WindowRect).width ∧
      1 ≤ (⟨832, 452, 256, 176⟩ : WindowRect).height) :=
  apply_bounds_fits_work_area (fun _ => some ⟨0, 0, 1920, 1080⟩)
    ⟨0, 0, 1920, 1080⟩ ⟨860, 480, 200, 120⟩ ⟨0, 0, 1920, 1080⟩
    (by decide) (by decide) rfl ⟨832, 452, 256, 176⟩ applyBounds_concrete_eval

/-- C3: a run of applyWidgetBoundsToWindow calls in which every call
resolves a display and computes a candidate rect whose summed absolute
per-field delta from the then-current rect is below 2 never mutates the
window: the rect after the run equals the rect before it. -/
theorem small_delta_run_keeps_rect :
    ∀ getDisplayNearestPoint : ℤ × ℤ → Option WorkArea,
    ∀ calls : List WidgetBounds, ∀ current : WindowRect,
      smallDeltaRun getDisplayNearestPoint current calls = true →
      runBoundsCalls getDisplayNearestPoint current calls = current := by
  intro gd calls
  induction calls with
  | nil => intro current _; rfl
  | cons wb rest ih =>
    intro current hrun
    rw [smallDeltaRun, Bool.and_eq_true] at hrun
    obtain ⟨hhead, htail⟩ := hrun
    have hstep : applyWidgetBoundsToWindow gd current wb = .ok none := by
      unfold applyWidgetBoundsToWindow
      cases hgd : gd (windowCenter current) with
      | none => rw [hgd] at hhead; cases hhead
      | some wa =>
        rw [hgd] at hhead
        simp only [decide_eq_true_eq] at hhead
        simp only [hhead, reduceIte]
    have hres : resultingRect current (applyWidgetBoundsToWindow gd current wb) =
        current := by rw [hstep]; rfl
    rw [runBoundsCalls, hres]
    rw [hres] at htail
    exact ih current htail

/-- C3 witness hypothesis: reporting the very bounds that produced the
current rect recomputes the same candidate, a delta of 0. -/
theorem smallDeltaRun_concrete_eval :
    smallDeltaRun (fun _ => some ⟨0, 0, 1920, 1080⟩) ⟨832, 452, 256, 176⟩
      [⟨860, 480, 200, 120⟩] = true := by
  norm_num [smallDeltaRun, applyWidgetBoundsToWindow, candidateRect,
    windowCenter, jsRound, clamp, rectDelta, resultingRect]

/-- C3 witness: on the concrete fixed point of the resize, a
small-delta call leaves the rect untouched. -/
theorem small_delta_run_keeps_rect_witness :
    runBoundsCalls (fun _ => some ⟨0, 0, 1920, 1080⟩) ⟨832, 452, 256, 176⟩
      [⟨860, 480, 200, 120⟩] = ⟨832, 452, 256, 176⟩ :=
  small_delta_run_keeps_rect (fun _ => some ⟨0, 0, 1920, 1080⟩)
    [⟨860, 480, 200, 120⟩] ⟨832, 452, 256, 176⟩ smallDeltaRun_concrete_eval

/-- C9: from window rect (0,0,1920,1080) on a (0,0,1920,1080) work
area, widget bounds (860,480,200,120) with the padding of 28 give the
desired size 256 x 176 and the applied rect (832, 452, 256, 176). -/
theorem shrinkwrap_concrete_scenario :
    max 1 (jsRound ((200 : ℚ) + 28 * 2)) = 256 ∧
    max 1 (jsRound ((120 : ℚ) + 28 * 2)) = 176 ∧
    applyWidgetBoundsToWindow (fun _ => some ⟨0, 0, 1920, 1080⟩)
      ⟨0, 0, 1920, 1080⟩ ⟨860, 480, 200, 120⟩ =
      .ok (some ⟨832, 452, 256, 176⟩) :=
  ⟨by norm_num [jsRound], by norm_num [jsRound], applyBounds_concrete_eval⟩

/-- C4 witness: three identical ticks from an empty dedup state emit
the sample exactly once. -/
theorem cursor_emission_dedup_witness :
    (runCursorTicks none
      (List.replicate 3 (false, (⟨0, 0, 10, 10⟩ : WindowRect), ((5, 5) : ℤ × ℤ)))).2 =
      [computeCursorSample ⟨0, 0, 10, 10⟩ (5, 5)] :=
  cursor_emission_dedup.2.2 3 ⟨0, 0, 10, 10⟩ (5, 5) none (by decide) (by decide)

end FelixOverlay
